import Mathlib

/-!
Shallow embedding of the `prompt` library (src/prompt/__init__.py), a set of
interactive command-line prompting helpers.  Terminal interaction is modelled
explicitly: each prompt function takes the list of input lines the user will
type (one line consumed per `input()`/`getpass()` call) and returns, besides
its result, the trace of everything the function wrote to the terminal (each
`print(...)` line and each prompt string displayed by `input(...)`, in order).
A computation that runs out of scripted input lines while still prompting
yields the `pending` outcome; raising `ValueError` out of the function (the
invalid-argument paths) yields `raised`; Python's `return None` — explicit or
by falling off the end of the function body — yields `noAns`.
-/

/-- Outcome of one prompt-function call.
`val a` models `return a`; `noAns` models returning Python `None`;
`raised` models an uncaught `ValueError`; `pending` means the scripted
input list was exhausted while the function was still prompting. -/
inductive Res (α : Type) where
  | val : α → Res α
  | noAns : Res α
  | raised : Res α
  | pending : Res α
deriving DecidableEq, Repr

/-- `PROMPT = "? "` — prompt that will be shown by default. -/
def PROMPT : String := "? "

/-- Python truthiness of a `str`: truthy iff non-empty. -/
def strTruthy (s : String) : Bool := s ≠ ""

/-- Embedding of `_make_prompt(prompt, default)`:
`if not prompt: prompt = '[{}]? '.format(default) if default else PROMPT`.
`toStr` models `str`/`format` on the default's type and `truthy` its Python
truthiness (`if default`); a `prompt` argument equal to `None` or to the
empty string is falsy, so it is replaced by the synthesized text. -/
def make_prompt {α : Type} (toStr : α → String) (truthy : α → Bool)
    (prompt : Option String) (default : Option α) : String :=
  match prompt with
  | some p =>
    if p = "" then
      match default with
      | some d => if truthy d then "[" ++ toStr d ++ "]? " else PROMPT
      | none => PROMPT
    else p
  | none =>
    match default with
    | some d => if truthy d then "[" ++ toStr d ++ "]? " else PROMPT
    | none => PROMPT

/-- Numeric value of a list of decimal digit characters. -/
def digitsVal (ds : List Char) : Nat :=
  ds.foldl (fun a c => a * 10 + (c.toNat - 48)) 0

/-- Surrounding-whitespace stripping, as `int()` performs on its argument. -/
def pyStrip (s : String) : List Char :=
  ((s.toList.dropWhile Char.isWhitespace).reverse.dropWhile Char.isWhitespace).reverse

/-- Embedding of Python's `int(s)` on a string: surrounding whitespace is
stripped, then an optional sign followed by one or more decimal digits is
accepted; anything else raises `ValueError` (modelled as `none`).
(Underscore digit separators and non-ASCII digits are not modelled; no
input in this development uses them.) -/
def pyIntParse (s : String) : Option Int :=
  match pyStrip s with
  | [] => none
  | c :: cs =>
    if c = '+' then
      if cs ≠ [] ∧ cs.all Char.isDigit then some (digitsVal cs) else none
    else if c = '-' then
      if cs ≠ [] ∧ cs.all Char.isDigit then some (-(digitsVal cs : Int)) else none
    else
      if (c :: cs).all Char.isDigit then some (digitsVal (c :: cs)) else none

/-- Embedding of `character(prompt, empty, default)`.  The `default, empty`
handling mirrors the source exactly: on an empty line, a set default is
returned, else `empty: return None`; when `empty` is false CPython falls off
the end of the `if not s:` chain and returns `None` as well (hence the
if-then-else with two identical branches, kept to mirror that control flow).
A response of length ≠ 1 recurses via
`character(prompt=prompt, empty=empty)`, i.e. with the default dropped. -/
def character (prompt : Option String) (empty : Bool) :
    Option String → List String → Res String × List String
  | _, [] => (.pending, [])
  | default, s :: rest =>
    let p := make_prompt id strTruthy prompt default
    if s = "" then
      match default with
      | some d => (.val d, [p])
      | none => if empty then (.noAns, [p]) else (.noAns, [p])
    else if s.length = 1 then (.val s, [p])
    else
      let r := character prompt empty none rest
      (r.1, p :: r.2)

/-- Embedding of `integer(prompt, empty, default)`; `int(s)` is
`pyIntParse`, a parse failure recurses via
`integer(prompt=prompt, empty=empty)` (default dropped), and the
empty-line handling is as in `character` (including the implicit
`return None` when `empty` is false and no default is set). -/
def integer (prompt : Option String) (empty : Bool) :
    Option Int → List String → Res Int × List String
  | _, [] => (.pending, [])
  | default, s :: rest =>
    let p := make_prompt (fun n : Int => toString n) (fun n => n ≠ 0) prompt default
    if s = "" then
      match default with
      | some d => (.val d, [p])
      | none => if empty then (.noAns, [p]) else (.noAns, [p])
    else
      match pyIntParse s with
      | some n => (.val n, [p])
      | none =>
        let r := integer prompt empty none rest
        (r.1, p :: r.2)

/-- Executable model of `RE_EMAIL_SIMPLE.match(s)`, the anchored pattern
`^[^@]+@[^@]+\.[^@]+$`: the string splits as `a@b` with `a` non-empty and
free of `@`, `b` free of `@`, and `b` containing a `.` that is neither its
first nor its last character.  (The `$`-before-trailing-newline subtlety of
`re` is not modelled; no input in this development carries a newline.) -/
def emailSimpleOk (s : String) : Bool :=
  let cs := s.toList
  let a := cs.takeWhile (fun c => c ≠ '@')
  match cs.dropWhile (fun c => c ≠ '@') with
  | '@' :: b => !a.isEmpty && !b.contains '@' && (b.drop 1).dropLast.contains '.'
  | _ => false

/-- Embedding of `email(prompt, empty, mode, default)`.  A `mode` other than
`"simple"` raises `ValueError` before any terminal interaction; otherwise
the shape is that of `character`, with `RE_EMAIL_SIMPLE.match(s)` as the
validator and the retry `email(prompt=prompt, empty=empty, mode=mode)`
dropping the default. -/
def email (prompt : Option String) (empty : Bool) (mode : String) :
    Option String → List String → Res String × List String
  | _, [] => if mode = "simple" then (.pending, []) else (.raised, [])
  | default, s :: rest =>
    if mode = "simple" then
      let p := make_prompt id strTruthy prompt default
      if s = "" then
        match default with
        | some d => (.val d, [p])
        | none => if empty then (.noAns, [p]) else (.noAns, [p])
      else
        if emailSimpleOk s then (.val s, [p])
        else
          let r := email prompt empty mode none rest
          (r.1, p :: r.2)
    else (.raised, [])

/-- Embedding of `real(prompt, empty, default)`.  The floating-point domain
`F` and the collaborators Python supplies for it — `float(s)` as
`floatParse` (raising `ValueError` modelled as `none`), `str` as `toStr`,
truthiness as `truthy` — are parameters; the retry
`real(prompt=prompt, empty=empty)` drops the default. -/
def real {F : Type} (floatParse : String → Option F) (toStr : F → String)
    (truthy : F → Bool) (prompt : Option String) (empty : Bool) :
    Option F → List String → Res F × List String
  | _, [] => (.pending, [])
  | default, s :: rest =>
    let p := make_prompt toStr truthy prompt default
    if s = "" then
      match default with
      | some d => (.val d, [p])
      | none => if empty then (.noAns, [p]) else (.noAns, [p])
    else
      match floatParse s with
      | some v => (.val v, [p])
      | none =>
        let r := real floatParse toStr truthy prompt empty none rest
        (r.1, p :: r.2)

/-- Embedding of `regex(pattern, prompt, empty, flags, default)`.  The regular
expression engine is an external collaborator, so the fixed application
`re.match(pattern, ·, flags=flags)` is a parameter `matchF` producing an
optional match object of type `M`.  The source sets `s = default` on an
empty line with a default present (falling through to the single
`re.match` call), returns `None` on an allowed empty line, and otherwise
matches `s`; the three `matchF` sites below mirror that one call site after
the mutation of `s`.  A failed match recurses via
`regex(pattern, prompt=prompt, empty=empty, flags=flags)` — default dropped. -/
def regex {M : Type} (matchF : String → Option M) (prompt : Option String)
    (empty : Bool) : Option String → List String → Res M × List String
  | _, [] => (.pending, [])
  | default, s :: rest =>
    let p := make_prompt id strTruthy prompt default
    if s = "" then
      match default with
      | some d =>
        match matchF d with
        | some m => (.val m, [p])
        | none =>
          let r := regex matchF prompt empty none rest
          (r.1, p :: r.2)
      | none =>
        if empty then (.noAns, [p])
        else
          match matchF "" with
          | some m => (.val m, [p])
          | none =>
            let r := regex matchF prompt empty none rest
            (r.1, p :: r.2)
    else
      match matchF s with
      | some m => (.val m, [p])
      | none =>
        let r := regex matchF prompt empty none rest
        (r.1, p :: r.2)

/-- Embedding of `secret(prompt, empty, default)`: reads via
`getpass.getpass` (no echo — the displayed prompt is still recorded in the
trace), accepts any non-empty line, and handles empty lines as `character`
does.  The recursive branch of the source is unreachable (guarded by `if s:`
inside the non-empty arm) but is kept to mirror the code. -/
def secret (prompt : Option String) (empty : Bool) :
    Option String → List String → Res String × List String
  | _, [] => (.pending, [])
  | default, s :: rest =>
    let p := make_prompt id strTruthy prompt default
    if s = "" then
      match default with
      | some d => (.val d, [p])
      | none => if empty then (.noAns, [p]) else (.noAns, [p])
    else
      if s ≠ "" then (.val s, [p])
      else
        let r := secret prompt empty none rest
        (r.1, p :: r.2)

/-- Embedding of `string(prompt, empty, default)`; identical to `secret`
except that the line is read with echo. -/
def string (prompt : Option String) (empty : Bool) :
    Option String → List String → Res String × List String
  | _, [] => (.pending, [])
  | default, s :: rest =>
    let p := make_prompt id strTruthy prompt default
    if s = "" then
      match default with
      | some d => (.val d, [p])
      | none => if empty then (.noAns, [p]) else (.noAns, [p])
    else
      if s ≠ "" then (.val s, [p])
      else
        let r := string prompt empty none rest
        (r.1, p :: r.2)

/-- The lines printed by `choice` before reading: the instruction, then each
choice as `'    {n}: {c}'` with its 1-based number. -/
def choiceOut {α : Type} (toStr : α → String) (cs : List α)
    (instruction : String) : List String :=
  instruction :: cs.enum.map (fun ic => "    " ++ toString (ic.1 + 1) ++ ": " ++ toStr ic.2)

/-- Embedding of `choice(choices, instruction, prompt, empty, default)`.
`toStr`/`truthy` model `format`/truthiness on the item type.  Fewer than one
choice raises `ValueError` before anything is printed or read.  The `try`
block succeeds iff `int(s)` parses and `int(s) - 1` is a valid non-negative
index (`acc`); the single `except (ValueError, IndexError)` block then
applies the empty/default policy (with CPython's implicit `return None`
when `empty` is false) or retries via
`choice(choices, instruction, prompt, empty)` — default dropped. -/
def choice {α : Type} (toStr : α → String) (truthy : α → Bool) (cs : List α)
    (instruction : String) (prompt : Option String) (empty : Bool) :
    Option α → List String → Res α × List String
  | _, [] =>
    if cs.length < 1 then (.raised, []) else (.pending, choiceOut toStr cs instruction)
  | default, s :: rest =>
    if cs.length < 1 then (.raised, [])
    else
      let out := choiceOut toStr cs instruction
      let p := make_prompt toStr truthy prompt default
      let acc : Option α :=
        match pyIntParse s with
        | none => none
        | some i => if i - 1 < 0 then none else cs[(i - 1).toNat]?
      match acc with
      | some c => (.val c, out ++ [p])
      | none =>
        if s = "" then
          match default with
          | some d => (.val d, out ++ [p])
          | none => if empty then (.noAns, out ++ [p]) else (.noAns, out ++ [p])
        else
          let r := choice toStr truthy cs instruction prompt empty none rest
          (r.1, out ++ p :: r.2)

/-- Python's `str.lower()` (ASCII lowering, as the tokens in this
development are ASCII). -/
def pyLower (x : String) : String :=
  String.mk (x.toList.map Char.toLower)

/-- Python's `a.startswith(b)`. -/
def pyStartsWith (a b : String) : Bool :=
  b.toList.isPrefixOf a.toList

/-- `x if sensitive else str(x).lower()` — the inner `norm` of `boolean`,
for string `x`. -/
def bnorm (sensitive : Bool) (x : String) : String :=
  if sensitive then x else pyLower x

/-- Embedding of `boolean`'s inner `to_bool(c)`: with truncated matching
allowed (`pm`, the source's `partial` flag) and a non-empty `c` (Python's
`len(c)` truthiness), a token starting with the normalized input selects
that token, yes before no; otherwise exact equality with a token is
required.  `raise ValueError` is modelled as `none`. -/
def to_bool (yes no : String) (sensitive pm : Bool) (c : String) : Option Bool :=
  if pm ∧ c ≠ "" then
    if pyStartsWith (bnorm sensitive yes) (bnorm sensitive c) then some true
    else if pyStartsWith (bnorm sensitive no) (bnorm sensitive c) then some false
    else none
  else
    if bnorm sensitive yes = bnorm sensitive c then some true
    else if bnorm sensitive no = bnorm sensitive c then some false
    else none

/-- The prompt text `boolean` displays: a supplied prompt is used as-is;
otherwise `'{y}/{n}? '` with the token equal to the default bracketed. -/
def booleanPromptText (prompt : Option String) (yes no : String)
    (default : Option Bool) : String :=
  match prompt with
  | some p => p
  | none =>
    let y := if default = some true then "[" ++ yes ++ "]" else yes
    let n := if default = some false then "[" ++ no ++ "]" else no
    y ++ "/" ++ n ++ "? "

/-- Embedding of `boolean(prompt, yes, no, default, sensitive, partial)`
(the last flag is `pm` here).  The source reassigns `prompt` to the
rendered text when it was `None`, returns the default on an empty line
before calling `to_bool`, and on `ValueError` retries passing every
parameter — including the default and the (now rendered) prompt. -/
def boolean (yes no : String) (default : Option Bool) (sensitive pm : Bool) :
    Option String → List String → Res Bool × List String
  | _, [] => (.pending, [])
  | pr, s :: rest =>
    let p := booleanPromptText pr yes no default
    if default ≠ none ∧ s = "" then (.val (default.getD false), [p])
    else
      match to_bool yes no sensitive pm s with
      | some b => (.val b, [p])
      | none =>
        let r := boolean yes no default sensitive pm (some p) rest
        (r.1, p :: r.2)

/-- A matcher that matches exactly the empty string (e.g. `re.match` with
the pattern `$`): used to exercise the regex kind's retry behaviour with a
default that never matches. -/
def matchEmptyOnly : String → Option String := fun s =>
  if s = "" then some s else none

example : character none false none [""] = (.noAns, ["? "]) := by decide
example : integer none false (some 7) ["", "x"] = (.val 7, ["[7]? "]) := rfl
example : integer none false none ["12"] = (.val 12, ["? "]) := by decide
example : emailSimpleOk "foo@bar.not" = true := by decide
example : emailSimpleOk "a@b" = false := by decide
example : emailSimpleOk "a@.b" = false := by decide
example : emailSimpleOk "a@b." = false := by decide
example : emailSimpleOk "@b.c" = false := by decide
example : emailSimpleOk "a@b@c.d" = false := by decide
example : choice id strTruthy ["moe", "curly", "larry"] "I" none false none ["1"]
    = (.val "moe", ["I", "    1: moe", "    2: curly", "    3: larry", "? "]) := by decide
example : (choice id strTruthy ["moe", "curly", "larry"] "I" none false none ["0", "2"]).1
    = .val "curly" := by decide
example : (choice id strTruthy ["moe", "curly", "larry"] "I" none false none ["4", "abc", "3"]).1
    = .val "larry" := by decide
example : (boolean "yes" "n" none false true none ["ye"]).1 = .val true := by decide
example : (boolean "y" "n" none false true none ["x", "n"]).1 = .val false := by decide
example : (boolean "Y" "n" none true true none ["y", "Y"]).1 = .val true := by decide

/-- Claim C1 — evaluation at the failing input.  The claim (and the
functions' own docstrings, "None if the user pressed only Enter and
``empty`` was True") says an empty line with no default and `empty = false`
re-prompts, and that `None` is returned only when `empty` is true.  The
code instead falls off the end of the `if not s:` chain and returns `None`:
`character(empty=False)` and `integer(empty=False)` on the single empty
input line return `None` after one prompt, with `empty = false` and no
default set. -/
theorem c1_empty_disallowed_returns_none_eval :
    character none false none [""] = (Res.noAns, [PROMPT]) ∧
    integer none false none [""] = (Res.noAns, [PROMPT]) :=
  ⟨rfl, rfl⟩

/-- Claim C2 — evaluation at the failing input.  The claim says a retry
after invalid input behaves as a fresh call with the original parameters,
so an empty line after a failed attempt still returns the supplied default
under the unchanged prompt text.  The code's recursive calls drop
`default`: `character(default='c')` fed `"xx"` then `""` shows `"[c]? "`
then the bare `"? "` marker and returns `None` instead of `"c"`; `choice`
with `default='moe'` fed `"abc"` then `""` likewise returns `None`. -/
theorem c2_retry_drops_default_eval :
    character none false (some "c") ["xx", ""] = (Res.noAns, ["[c]? ", PROMPT]) ∧
    (choice id strTruthy ["moe", "curly"] "Select one of the following: "
        none false (some "moe") ["abc", ""]).1 = Res.noAns := by
  exact ⟨by decide, by decide⟩

/-- Claim C4 — evaluation at the failing input.  The claim's main content
holds (an empty line with a default substitutes the default as the input
and matches it, returning the match on success and retrying on failure),
but its "retried indefinitely if the default never matches" part does not:
the retry drops the default, so with a matcher accepting exactly the empty
string and default `"c"` (which never matches), two empty input lines do
not loop forever — the second empty line is matched directly and a match
for `""` is returned. -/
theorem c4_regex_default_substitution_eval :
    regex matchEmptyOnly none false (some "c") ["", ""]
      = (Res.val "", ["[c]? ", PROMPT]) := by
  decide

/-- Claim C3: for every prompt kind except regex, an empty input line with a
supplied default returns that default, whatever the value of `empty`,
without invoking the kind's coercer — for `real` this is stated for every
possible parse function, and for the other kinds the default is returned
untouched even when its raw form would fail the kind's own check. -/
theorem c3_default_precedence_over_empty :
    (∀ pr e d rest, character pr e (some d) ("" :: rest)
        = (Res.val d, [make_prompt id strTruthy pr (some d)])) ∧
    (∀ pr e d rest, email pr e "simple" (some d) ("" :: rest)
        = (Res.val d, [make_prompt id strTruthy pr (some d)])) ∧
    (∀ pr e d rest, integer pr e (some d) ("" :: rest)
        = (Res.val d, [make_prompt (fun n : Int => toString n) (fun n => n ≠ 0) pr (some d)])) ∧
    (∀ (F : Type) (fp : String → Option F) ts tru pr e d rest,
        real fp ts tru pr e (some d) ("" :: rest)
        = (Res.val d, [make_prompt ts tru pr (some d)])) ∧
    (∀ pr e d rest, secret pr e (some d) ("" :: rest)
        = (Res.val d, [make_prompt id strTruthy pr (some d)])) ∧
    (∀ pr e d rest, string pr e (some d) ("" :: rest)
        = (Res.val d, [make_prompt id strTruthy pr (some d)])) ∧
    (∀ (α : Type) (ts : α → String) tru (c0 : α) cs instr pr e d rest,
        choice ts tru (c0 :: cs) instr pr e (some d) ("" :: rest)
        = (Res.val d, choiceOut ts (c0 :: cs) instr ++ [make_prompt ts tru pr (some d)])) ∧
    (∀ yes no sens pm pr b rest, boolean yes no (some b) sens pm pr ("" :: rest)
        = (Res.val b, [booleanPromptText pr yes no (some b)])) :=
  ⟨fun _ _ _ _ => rfl, fun _ _ _ _ => rfl, fun _ _ _ _ => rfl,
   fun _ _ _ _ _ _ _ _ => rfl, fun _ _ _ _ => rfl, fun _ _ _ _ => rfl,
   fun _ _ _ _ _ _ _ _ _ _ => rfl, fun _ _ _ _ _ _ _ => rfl⟩

/-- Claim C5 — counterexample.  The claim says a caller-supplied prompt
string is used verbatim; but `_make_prompt` tests Python truthiness
(`if not prompt`), so the supplied empty prompt string is discarded and the
default-derived text is rendered instead of the verbatim `""`. -/
theorem c5_counterexample_empty_prompt :
    make_prompt id strTruthy (some "") (some "d") = "[d]? " ∧
    ("[d]? " : String) ≠ "" :=
  ⟨rfl, by decide⟩

/-- Claim C5 as amended: a caller-supplied *non-empty* prompt string is used
verbatim; otherwise (prompt absent or the empty string), if a *truthy*
default is set the text `"[<default>]? "` is rendered from it, and
otherwise (default absent or falsy, e.g. `0` or `""`) the constant marker
`"? "` is used. -/
theorem c5_make_prompt_amended :
    (∀ (α : Type) (ts : α → String) (tru : α → Bool) (p : String) d,
        p ≠ "" → make_prompt ts tru (some p) d = p) ∧
    (∀ (α : Type) (ts : α → String) (tru : α → Bool) (d : α), tru d = true →
        make_prompt ts tru none (some d) = "[" ++ ts d ++ "]? " ∧
        make_prompt ts tru (some "") (some d) = "[" ++ ts d ++ "]? ") ∧
    (∀ (α : Type) (ts : α → String) (tru : α → Bool),
        make_prompt ts tru none (none : Option α) = PROMPT ∧
        make_prompt ts tru (some "") (none : Option α) = PROMPT) ∧
    (∀ (α : Type) (ts : α → String) (tru : α → Bool) (d : α), tru d = false →
        make_prompt ts tru none (some d) = PROMPT ∧
        make_prompt ts tru (some "") (some d) = PROMPT) ∧
    PROMPT = "? " := by
  refine ⟨?_, ?_, ?_, ?_, rfl⟩
  · intro α ts tru p d hp
    simp [make_prompt, hp]
  · intro α ts tru d hd
    constructor <;> simp [make_prompt, hd]
  · intro α ts tru
    constructor <;> simp [make_prompt]
  · intro α ts tru d hd
    constructor <;> simp [make_prompt, hd]

/-- Witness for `c5_make_prompt_amended` at concrete inputs: a non-empty
supplied prompt is returned verbatim, and an `integer` default of `0`
(falsy) yields the bare marker. -/
theorem c5_make_prompt_amended_witness :
    make_prompt id strTruthy (some "Enter: ") none = "Enter: " ∧
    make_prompt (fun n : Int => toString n) (fun n => n ≠ 0) none (some 0) = PROMPT :=
  ⟨c5_make_prompt_amended.1 String id strTruthy "Enter: " none (by decide),
   (c5_make_prompt_amended.2.2.2.1 Int (fun n => toString n) (fun n => n ≠ 0) 0
      (by decide)).1⟩

/-- Claim C6: invalid-argument errors are fatal and precede any I/O —
`choice` with zero choices raises `ValueError` with an empty terminal trace
(nothing printed, no prompt displayed, hence nothing read) whatever the
scripted input, and `email` with a mode other than `"simple"` likewise
raises with no terminal interaction. -/
theorem c6_invalid_argument_before_io :
    (∀ (α : Type) (ts : α → String) (tru : α → Bool) instr pr e d inputs,
        choice ts tru ([] : List α) instr pr e d inputs = (Res.raised, [])) ∧
    (∀ mode, mode ≠ "simple" → ∀ pr e d inputs,
        email pr e mode d inputs = (Res.raised, [])) := by
  constructor
  · intro α ts tru instr pr e d inputs
    cases inputs <;> rfl
  · intro mode hm pr e d inputs
    cases inputs <;> simp [email, hm]

/-- Witness for `c6_invalid_argument_before_io`: the email part applied at
mode `"advanced"` with a scripted input line that is never read. -/
theorem c6_invalid_argument_witness :
    email none false "advanced" none ["a@b.c"] = (Res.raised, []) :=
  c6_invalid_argument_before_io.2 "advanced" (by decide) none false none ["a@b.c"]

/-- Claim C7: for `choice` over a non-empty list, a non-empty input line is
accepted iff it parses as an integer `i` with `1 ≤ i ≤ n`, in which case
the item at 0-based position `i - 1` is returned; otherwise (parse failure
or out of range) the call retries, re-displaying the instruction and the
numbered choices before the next prompt. -/
theorem c7_choice_index_selection :
    ∀ (α : Type) (ts : α → String) (tru : α → Bool) (c0 : α) cs instr pr e d
      (s : String) rest, s ≠ "" →
      choice ts tru (c0 :: cs) instr pr e d (s :: rest) =
        match pyIntParse s with
        | some i =>
          if 1 ≤ i ∧ i ≤ (c0 :: cs).length then
            (Res.val ((c0 :: cs).getD (i - 1).toNat c0),
             choiceOut ts (c0 :: cs) instr ++ [make_prompt ts tru pr d])
          else
            ((choice ts tru (c0 :: cs) instr pr e none rest).1,
             choiceOut ts (c0 :: cs) instr ++ make_prompt ts tru pr d ::
               (choice ts tru (c0 :: cs) instr pr e none rest).2)
        | none =>
          ((choice ts tru (c0 :: cs) instr pr e none rest).1,
           choiceOut ts (c0 :: cs) instr ++ make_prompt ts tru pr d ::
             (choice ts tru (c0 :: cs) instr pr e none rest).2) := by
  intro α ts tru c0 cs instr pr e d s rest hs
  cases hpi : pyIntParse s with
  | none => simp [choice, hpi, hs]
  | some i =>
    by_cases hr : 1 ≤ i ∧ i ≤ (c0 :: cs).length
    · obtain ⟨h1, h2⟩ := hr
      have h2' : i ≤ (cs.length : Int) + 1 := by simpa using h2
      have hneg : ¬ i - 1 < 0 := by omega
      have hidx : i.toNat - 1 < (c0 :: cs).length := by
        simp only [List.length_cons]
        omega
      have hsome := List.getElem?_eq_getElem hidx
      simp [choice, hpi, hneg, h1, h2', hsome, List.getD_eq_getElem?_getD]
    · rcases Int.lt_or_le i 1 with hlo | hge
      · have hneg : i - 1 < 0 := by omega
        have hcond : ¬ (1 ≤ i ∧ i ≤ (cs.length : Int) + 1) := by omega
        simp [choice, hpi, hneg, hs, hcond]
      · have hgt : (cs.length : Int) + 1 < i := by
          by_contra hc
          push_neg at hc
          exact hr ⟨hge, by simpa using hc⟩
        have hneg : ¬ i - 1 < 0 := by omega
        have hnone : (c0 :: cs)[i.toNat - 1]? = none := by
          apply List.getElem?_eq_none
          simp only [List.length_cons]
          omega
        have hcond : ¬ (1 ≤ i ∧ i ≤ (cs.length : Int) + 1) := by omega
        simp [choice, hpi, hneg, hs, hcond, hnone]

/-- Witness for `c7_choice_index_selection`: `choice(["moe","curly","larry"])`
fed `"1"` prints the instruction and the numbered choices, prompts, and
returns `"moe"`. -/
theorem c7_choice_index_selection_witness :
    choice id strTruthy ["moe", "curly", "larry"] "Select one of the following: "
        none false none ["1"]
      = (Res.val "moe",
         ["Select one of the following: ", "    1: moe", "    2: curly",
          "    3: larry", "? "]) :=
  (c7_choice_index_selection String id strTruthy "moe" ["curly", "larry"]
      "Select one of the following: " none false none "1" [] (by decide)).trans
    (by decide)

/-- Claim C8: with truncated matching enabled and a non-empty input line, the
input is accepted as `True` whenever the (case-normalized, unless
`sensitive`) yes-token starts with the normalized input; the yes check runs
before the no check, so an input that is a prefix of both tokens resolves
to `True`; an input that is a prefix of neither re-prompts. -/
theorem c8_boolean_yes_checked_first :
    ∀ yes no sens (dflt : Option Bool) pr (s : String) rest, s ≠ "" →
      boolean yes no dflt sens true pr (s :: rest) =
        (if pyStartsWith (bnorm sens yes) (bnorm sens s) then
           (Res.val true, [booleanPromptText pr yes no dflt])
         else if pyStartsWith (bnorm sens no) (bnorm sens s) then
           (Res.val false, [booleanPromptText pr yes no dflt])
         else
           ((boolean yes no dflt sens true
               (some (booleanPromptText pr yes no dflt)) rest).1,
            booleanPromptText pr yes no dflt ::
              (boolean yes no dflt sens true
                (some (booleanPromptText pr yes no dflt)) rest).2)) := by
  intro yes no sens dflt pr s rest hs
  have hcond : ¬ (dflt ≠ none ∧ s = "") := by simp [hs]
  by_cases hy : pyStartsWith (bnorm sens yes) (bnorm sens s)
  · simp [boolean, to_bool, hcond, hs, hy]
  · by_cases hn : pyStartsWith (bnorm sens no) (bnorm sens s)
    · simp [boolean, to_bool, hcond, hs, hy, hn]
    · simp [boolean, to_bool, hcond, hs, hy, hn]

/-- Witness for `c8_boolean_yes_checked_first`: `boolean(yes="yes")` on the
input `"y"` returns `True` under default truncated matching. -/
theorem c8_boolean_yes_checked_first_witness :
    boolean "yes" "n" none false true none ["y"] = (Res.val true, ["yes/n? "]) :=
  (c8_boolean_yes_checked_first "yes" "n" false none none "y" [] (by decide)).trans
    (by decide)

/-- Claim C9: for the regex kind with no default and `empty = false`, an
empty input line is itself handed to the matcher — if the pattern matches
the empty string a match object is returned as a successful result even
though empty responses are disallowed, and only otherwise is the prompt
retried. -/
theorem c9_regex_empty_line_matched :
    ∀ (M : Type) (matchF : String → Option M) pr rest,
      regex matchF pr false none ("" :: rest) =
        (match matchF "" with
         | some m => (Res.val m, [make_prompt id strTruthy pr none])
         | none =>
           ((regex matchF pr false none rest).1,
            make_prompt id strTruthy pr none :: (regex matchF pr false none rest).2)) := by
  intro M matchF pr rest
  cases hm : matchF "" <;> simp [regex, hm]

/-- Claim C10: for `boolean`, every retry passes all original parameters —
including the default — along, so after any number of unmatched non-empty
attempts an empty input line still returns the supplied default. -/
theorem c10_boolean_default_survives_retries :
    ∀ yes no (b : Bool) sens pm pr (bads : List String) rest,
      (∀ s ∈ bads, to_bool yes no sens pm s = none) →
      (boolean yes no (some b) sens pm pr (bads ++ "" :: rest)).1 = Res.val b := by
  intro yes no b sens pm pr bads rest
  induction bads generalizing pr with
  | nil =>
    intro _
    simp [boolean]
  | cons s bs ih =>
    intro h
    by_cases hse : s = ""
    · subst hse
      simp [boolean]
    · have hsb : to_bool yes no sens pm s = none := h s (by simp)
      simp [boolean, hse, hsb]
      exact ih (some (booleanPromptText pr yes no (some b)))
        (fun t ht => h t (by simp [ht]))

/-- Witness for `c10_boolean_default_survives_retries`: two unmatched
attempts (`"x"`, `"zz"`) followed by an empty line still yield the
supplied default `False`. -/
theorem c10_boolean_default_survives_retries_witness :
    (boolean "y" "n" (some false) false true none ["x", "zz", ""]).1 = Res.val false :=
  c10_boolean_default_survives_retries "y" "n" false false true none ["x", "zz"] []
    (by decide)
